import Mathlib

/-!
Verification of the environment-resolution engine of the
`robotics_containerization` repository.

The Python sources (`src/generate_config.py`, `src/build.py`, `src/run.py`)
are shallowly embedded below: the raw YAML configuration becomes the
`Config` structure, the filesystem becomes an explicit `FS` value listing
existing directories and files, printed diagnostics become the `Diag`
inductive, an uncaught Python exception becomes `PyResult.crash`, and
`generate_config` is translated branch by branch.  Text handling
(`str.strip`, `str.replace`, `shlex.quote`, splitting an env file into
lines) is modelled over `List Char` / `String`.
-/

namespace RoboticsContainerization

/-- Characters Python `shlex.quote` leaves unquoted: ASCII alphanumerics,
underscore, `@ % + = : , . - ` and the forward slash, from the
`_find_unsafe` regex in `shlex`. -/
def shlexSafeChar (c : Char) : Bool :=
  c.isAlphanum || c = '_' || c = '@' || c = '%' || c = '+' || c = '=' ||
  c = ':' || c = ',' || c = '.' || c = '/' || c = '-'

/-- Replace non-overlapping occurrences of `old` left to right, with enough
`fuel`; structural in `fuel` so that the kernel can evaluate it. -/
def pyReplaceFuel (old new : List Char) : Nat → List Char → List Char
  | _, [] => []
  | 0, s => s
  | fuel + 1, c :: rest =>
    if !old.isEmpty && old.isPrefixOf (c :: rest) then
      new ++ pyReplaceFuel old new fuel ((c :: rest).drop old.length)
    else c :: pyReplaceFuel old new fuel rest

/-- Python `s.replace(old, new)` (for non-empty `old`, the only way the
sources call it). -/
def pyReplace (s old new : String) : String :=
  ⟨pyReplaceFuel old.data new.data s.data.length s.data⟩

/-- Embedding of Python `shlex.quote`. -/
def shlexQuote (s : String) : String :=
  if s = "" then "''"
  else if s.data.all shlexSafeChar then s
  else "'" ++ (pyReplace s "'" "'\"'\"'") ++ "'"

/-- `bash_array_assignment` from `src/generate_config.py`. -/
def bash_array_assignment (items : List String) : String :=
  "(" ++ String.intercalate " " (items.map shlexQuote) ++ ")"

/-- The `container_env` block of the YAML configuration. -/
structure ContainerEnvBlock where
  container_usr : String
  container_psw : String
  container_uid : String
  container_gid : String
deriving DecidableEq

/-- The `supported` block of the YAML configuration. -/
structure Supported where
  architectures : List String
  middlewares : List String
  ros2_distros : List String
deriving DecidableEq

/-- The `docker_base_images` block of the YAML configuration. -/
structure DockerBaseImages where
  x86_full_image : String
  arm_base_image : String
  microros_base_image : String
deriving DecidableEq

/-- The `docker_file_image_container` block of the YAML configuration. -/
structure DockerFileImageContainer where
  dockerfile : String
  docker_image : String
  docker_container : String
deriving DecidableEq

/-- The loaded YAML configuration (`env.yaml`).  `target_platorm` is the
key looked up (and never otherwise used) at line 43 of
`src/generate_config.py`; it is `Option`al so that a configuration missing
that key is representable. -/
structure Config where
  repo_author : String
  project_repo : String
  volumes : List String
  container_env : ContainerEnvBlock
  ros2_distro : String
  middleware : String
  target_platorm : Option String
  docker_base_images : DockerBaseImages
  docker_file_image_container : DockerFileImageContainer
  container_run_cmd : String
  supported : Supported
deriving DecidableEq

/-- The filesystem state observed by `generate_config`: which paths are
existing directories and which are existing files. -/
structure FS where
  dirs : List String
  files : List String
deriving DecidableEq

def FS.isDir (fs : FS) (p : String) : Bool := fs.dirs.contains p

def FS.isFile (fs : FS) (p : String) : Bool := fs.files.contains p

/-- `Path` concatenation with `/` (the only use `generate_config` makes of
`pathlib`). -/
def joinPath (a b : String) : String := a ++ "/" ++ b

/-- The diagnostics printed by `generate_config` before returning `None`. -/
inductive Diag where
  | unsupportedArchitecture (arch : String) (supported : List String)
  | unsupportedMiddleware (mw : String) (supported : List String)
  | unsupportedRos2Distro (distro : String) (supported : List String)
  | missingDir (path : String)
  | missingDockerfile (name : String)
deriving DecidableEq

/-- Outcome of running the Python function `generate_config`: either an
uncaught exception (`crash` carries the missing key of a `KeyError`) or a
normal return carrying the list of printed diagnostics and the returned
value (`none` embeds Python `None`). -/
inductive PyResult where
  | crash (key : String)
  | ret (printed : List Diag) (result : Option (List (String × String)))
deriving DecidableEq

def PyResult.printed : PyResult → List Diag
  | .crash _ => []
  | .ret p _ => p

def PyResult.result : PyResult → Option (List (String × String))
  | .crash _ => none
  | .ret _ r => r

/-- Python dict insert-or-update: an existing key keeps its position and
gets the new value, a new key is appended. -/
def updateOrAppend : List (String × String) → String → String → List (String × String)
  | [], k, v => [(k, v)]
  | p :: rest, k, v => if p.1 == k then (k, v) :: rest else p :: updateOrAppend rest k v

/-- Python dict union `d1 | d2` (right operand wins, insertion order of the
left operand preserved). -/
def pyDictUnion (d1 d2 : List (String × String)) : List (String × String) :=
  d2.foldl (fun acc p => updateOrAppend acc p.1 p.2) d1

/-- The `repo_env` partial mapping of `generate_config`. -/
def repo_env (cfg : Config) : List (String × String) :=
  [("REPO_AUTHOR", cfg.repo_author),
   ("PROJECT_REPO", cfg.project_repo)]

/-- The `volumes_env` partial mapping of `generate_config`. -/
def volumes_env (localWs : String) (volumes : List String) : List (String × String) :=
  [("LOCAL_WS_PATH", localWs),
   ("VOLUMES", bash_array_assignment volumes)]

/-- The `container_env` partial mapping of `generate_config`. -/
def container_env_map (cfg : Config) : List (String × String) :=
  [("CONTAINER_USR", cfg.container_env.container_usr),
   ("CONTAINER_PSW", cfg.container_env.container_psw),
   ("CONTAINER_UID", cfg.container_env.container_uid),
   ("CONTAINER_GID", cfg.container_env.container_gid),
   ("CONTAINER_HOME", "/home/" ++ cfg.container_env.container_usr),
   ("CONTAINER_WS", "/home/" ++ cfg.container_env.container_usr ++ "/" ++ cfg.project_repo),
   ("CONTAINER_RUN_CMD", cfg.container_run_cmd)]

/-- The `base_image_env` partial mapping of `generate_config`. -/
def base_image_env (base_image ros2_distro build_stage arch sourceArch : String) :
    List (String × String) :=
  [("BASE_IMAGE", pyReplace base_image "ROS2_DISTRO" ros2_distro),
   ("BUILD_STAGE", build_stage),
   ("TARGET_ARCH", arch),
   ("SOURCE_ARCH", sourceArch)]

/-- The `image_env` partial mapping of `generate_config`. -/
def image_env (dockerfile_name docker_image_name docker_container_name tag : String) :
    List (String × String) :=
  [("DOCKERFILE", dockerfile_name),
   ("DOCKER_IMAGE", docker_image_name),
   ("DOCKER_CONTAINER", docker_container_name),
   ("DOCKER_IMAGE_TAG", tag)]

/-- Tail of `generate_config` after the middleware branch fixed
`base_image`, `build_stage`, `tag` and `arch`: dockerfile existence check,
name substitution and the final dict merge. -/
def finishConfig (fs : FS) (rcPath sourceArch : String) (cfg : Config)
    (localWs base_image build_stage tag arch : String) : PyResult :=
  let dockerfile_name :=
    pyReplace cfg.docker_file_image_container.dockerfile "MIDDLEWARE" cfg.middleware
  if ¬ fs.isFile (joinPath (joinPath rcPath "docker") dockerfile_name) then
    .ret [.missingDockerfile dockerfile_name] none
  else
    let docker_image_name :=
      pyReplace (pyReplace (pyReplace cfg.docker_file_image_container.docker_image
        "REPO_AUTHOR" cfg.repo_author) "PROJECT_REPO" cfg.project_repo)
        "ROS2_DISTRO" cfg.ros2_distro
    let docker_container_name :=
      pyReplace (pyReplace cfg.docker_file_image_container.docker_container
        "PROJECT_REPO" cfg.project_repo) "TAG" tag
    .ret []
      (some (pyDictUnion
        (pyDictUnion
          (pyDictUnion
            (pyDictUnion (repo_env cfg) (volumes_env localWs cfg.volumes))
            (container_env_map cfg))
          (base_image_env base_image cfg.ros2_distro build_stage arch sourceArch))
        (image_env dockerfile_name docker_image_name docker_container_name tag)))

/-- `generate_config` from `src/generate_config.py`.  `rootDir` embeds
`ROOT_DIR`, `rcPath` embeds `ROBOTICS_CONTAINER_PATH`, `sourceArch` embeds
`platform.machine()`, and `fs` the filesystem. -/
def generate_config (fs : FS) (rootDir rcPath sourceArch : String)
    (cfg : Config) (target_arch : String) : PyResult :=
  match cfg.target_platorm with
  | none => .crash "target_platorm"
  | some _ =>
    if target_arch ∉ cfg.supported.architectures then
      .ret [.unsupportedArchitecture target_arch cfg.supported.architectures] none
    else if cfg.middleware ∉ cfg.supported.middlewares then
      .ret [.unsupportedMiddleware cfg.middleware cfg.supported.middlewares] none
    else if cfg.ros2_distro ∉ cfg.supported.ros2_distros then
      .ret [.unsupportedRos2Distro cfg.ros2_distro cfg.supported.ros2_distros] none
    else
      let localWs := joinPath rootDir cfg.project_repo
      if ¬ fs.isDir localWs then
        .ret [.missingDir localWs] none
      else
        match cfg.volumes.find? (fun v => ! fs.isDir v) with
        | some v => .ret [.missingDir v] none
        | none =>
          if cfg.middleware = "ros2" then
            if target_arch ∈ (["develop", "x86_64"] : List String) then
              finishConfig fs rcPath sourceArch cfg localWs
                cfg.docker_base_images.x86_full_image "develop-stage" "develop" "x86_64"
            else if target_arch ∈ (["deploy", "arm", "aarch64"] : List String) then
              finishConfig fs rcPath sourceArch cfg localWs
                cfg.docker_base_images.arm_base_image "deploy-stage" "deploy" "arm"
            else
              .ret [.unsupportedArchitecture target_arch cfg.supported.architectures] none
          else if cfg.middleware = "micro-ros" then
            if target_arch ∈ (["develop"] : List String) then
              finishConfig fs rcPath sourceArch cfg localWs
                cfg.docker_base_images.microros_base_image "develop-stage" "develop" "x86_64"
            else if target_arch ∈ (["deploy"] : List String) then
              finishConfig fs rcPath sourceArch cfg localWs
                cfg.docker_base_images.microros_base_image "deploy-stage" "deploy" "arm"
            else
              .ret [.unsupportedArchitecture target_arch cfg.supported.architectures] none
          else
            .ret [.unsupportedMiddleware cfg.middleware ["ros2", "micro-ros"]] none

/-- `write_env_config`: one `KEY=VALUE` line per entry, insertion order
preserved; the result is the content of the written file. -/
def write_env_config (env : List (String × String)) : List Char :=
  env.flatMap (fun p => p.1.data ++ '=' :: (p.2.data ++ ['\n']))

/-- The `main` entry point of `src/generate_config.py` (equally
`run_generate_config` in `src/build.py` and `src/run.py`) as a transform of
the persisted store: the `.env` file content is replaced only when
`generate_config` returns a mapping. -/
def mainStep (fs : FS) (rootDir rcPath sourceArch : String) (cfg : Config)
    (target_arch : String) (store : Option (List Char)) : Option (List Char) :=
  match (generate_config fs rootDir rcPath sourceArch cfg target_arch).result with
  | none => store
  | some env => some (write_env_config env)

/-- Whitespace characters removed by Python `str.strip()` (the ASCII ones). -/
def isPySpace (c : Char) : Bool :=
  c = ' ' || c = '\t' || c = '\n' || c = '\r' || c = '\x0b' || c = '\x0c'

/-- Python `str.strip()` on a character list. -/
def pystripL (cs : List Char) : List Char :=
  ((cs.dropWhile isPySpace).reverse.dropWhile isPySpace).reverse

/-- Python `str.strip()`. -/
def pystrip (s : String) : String := ⟨pystripL s.data⟩

/-- Python `str.lower()` (ASCII letters). -/
def pyLower (s : String) : String := ⟨s.data.map Char.toLower⟩

/-- Python `str.startswith` on the embedded character lists. -/
def pyStartsWith (s pre : String) : Bool := pre.data.isPrefixOf s.data

/-- Split a line at its first `=`: Python `line.split("=", 1)`; `none` when
the line has no `=` (the line is then skipped by the parser). -/
def splitEq : List Char → Option (List Char × List Char)
  | [] => none
  | c :: rest =>
    if c = '=' then some ([], rest)
    else (splitEq rest).map (fun p => (c :: p.1, p.2))

/-- One iteration of the parse loop of `parse_env_file`
(`src/build.py` lines 59-67): strip the line, skip blank and `#` lines and
lines without `=`, otherwise split at the first `=` and strip both parts. -/
def parseLine (line : List Char) : Option (String × String) :=
  let s := pystripL line
  match s with
  | [] => none
  | c :: _ =>
    if c = '#' then none
    else
      match splitEq s with
      | none => none
      | some (k, v) => some (⟨pystripL k⟩, ⟨pystripL v⟩)

/-- Characters Python `str.splitlines` treats as line boundaries. -/
def lineBreakChar (c : Char) : Bool :=
  c = '\n' || c = '\r' || c = '\x0b' || c = '\x0c' ||
  c = '\x1c' || c = '\x1d' || c = '\x1e' || c = '\x85' ||
  c = '\u2028' || c = '\u2029'

/-- Helper for `pySplitLines`.  `afterCR` records that the previous
character was a carriage return whose line break has already been counted,
so an immediately following newline belongs to the same `\r\n` boundary. -/
def splitLinesGo (afterCR : Bool) : List Char → List (List Char)
  | [] => []
  | c :: rest =>
    if afterCR && (c == '\n') then splitLinesGo false rest
    else if lineBreakChar c then [] :: splitLinesGo (c == '\r') rest
    else
      match splitLinesGo false rest with
      | [] => [[c]]
      | l :: ls => (c :: l) :: ls

/-- Python `str.splitlines`: split at line-break characters, treating
`\r\n` as a single boundary, with no trailing empty line. -/
def pySplitLines (cs : List Char) : List (List Char) := splitLinesGo false cs

/-- One `env[key.strip()] = val.strip()` update of the parse loop (a
skipped line leaves the dict unchanged). -/
def parseStep (env : List (String × String)) (line : List Char) : List (String × String) :=
  match parseLine line with
  | none => env
  | some (k, v) => updateOrAppend env k v

/-- `parse_env_file` from `src/build.py` applied to file content already in
memory: split into lines, parse each line, accumulate into a dict. -/
def parse_env_file (text : List Char) : List (String × String) :=
  (pySplitLines text).foldl parseStep []

/-- A key round-trips through the flat `KEY=VALUE` store: no surrounding
whitespace (so `str.strip` leaves it alone), no line-break characters, no
`=`, and it does not start with `#`. -/
def goodKey (k : String) : Prop :=
  k.data.dropWhile isPySpace = k.data ∧
  k.data.reverse.dropWhile isPySpace = k.data.reverse ∧
  (∀ c ∈ k.data, lineBreakChar c = false) ∧
  '=' ∉ k.data ∧
  k.data.headD '=' ≠ '#'

/-- A value round-trips through the flat `KEY=VALUE` store: no surrounding
whitespace and no line-break characters. -/
def goodVal (v : String) : Prop :=
  v.data.dropWhile isPySpace = v.data ∧
  v.data.reverse.dropWhile isPySpace = v.data.reverse ∧
  ∀ c ∈ v.data, lineBreakChar c = false

instance (k : String) : Decidable (goodKey k) := by
  unfold goodKey
  infer_instance

instance (v : String) : Decidable (goodVal v) := by
  unfold goodVal
  infer_instance

namespace build

/-- `normalize_arch` from `src/build.py`. -/
def normalize_arch (a : String) : String :=
  let a := pyLower (pystrip a)
  if a = "arm64" then "aarch64"
  else if pyStartsWith a "armv7" || a = "armv7l" then "armv7"
  else a

/-- `choose_platform_option` from `src/build.py`. -/
def choose_platform_option (target_arch source_arch : String) : Option String :=
  let targ := normalize_arch target_arch
  let _src := normalize_arch source_arch
  if targ ∈ (["develop", "x86_64"] : List String) then some "--platform=linux/amd64"
  else if targ ∈ (["deploy", "arm", "aarch64"] : List String) then some "--platform=linux/arm64"
  else if targ = "armv7" then some "--platform=linux/arm/v7"
  else none

end build

namespace run

/-- `normalize_arch` from `src/run.py` (distinct from the `src/build.py`
copy: the `armv7` spellings and `arm` collapse to `arm`). -/
def normalize_arch (a : String) : String :=
  if a = "" then ""
  else
    let s := pyLower (pystrip a)
    if s = "arm64" then "aarch64"
    else if s = "arm" || s = "armv7l" || pyStartsWith s "armv7" then "arm"
    else s

/-- `choose_platform_option` from `src/run.py`. -/
def choose_platform_option (target_arch source_arch : String) : Option String :=
  let targ := normalize_arch target_arch
  let _src := normalize_arch source_arch
  if targ ∈ (["develop", "x86_64"] : List String) then some "--platform=linux/amd64"
  else if targ ∈ (["deploy", "arm", "aarch64"] : List String) then some "--platform=linux/arm64"
  else if targ = "armv7" then some "--platform=linux/arm/v7"
  else none

end run

/-- A concrete well-formed configuration used to instantiate theorems. -/
def sampleConfig : Config where
  repo_author := "vince"
  project_repo := "robot_ws"
  volumes := ["/data/assets"]
  container_env :=
    { container_usr := "dev", container_psw := "pw",
      container_uid := "1000", container_gid := "1000" }
  ros2_distro := "humble"
  middleware := "ros2"
  target_platorm := some "linux/arm64"
  docker_base_images :=
    { x86_full_image := "osrf/ros:ROS2_DISTRO-desktop",
      arm_base_image := "arm64v8/ros:ROS2_DISTRO-ros-base",
      microros_base_image := "microros/micro-ros-agent:ROS2_DISTRO" }
  docker_file_image_container :=
    { dockerfile := "Dockerfile.MIDDLEWARE",
      docker_image := "REPO_AUTHOR/PROJECT_REPO:ROS2_DISTRO",
      docker_container := "PROJECT_REPO-TAG" }
  container_run_cmd := "/bin/bash"
  supported :=
    { architectures := ["develop", "deploy", "x86_64", "arm", "aarch64"],
      middlewares := ["ros2", "micro-ros"],
      ros2_distros := ["humble"] }

/-- A concrete filesystem on which `sampleConfig` resolves successfully. -/
def sampleFS : FS where
  dirs := ["/root/ws/robot_ws", "/data/assets"]
  files := ["/root/ws/rc/docker/Dockerfile.ros2", "/root/ws/rc/docker/Dockerfile.micro-ros"]

/-- `sampleConfig` with a middleware outside the supported set. -/
def c4Config : Config := { sampleConfig with middleware := "ros1" }

/-- `sampleConfig` with the `micro-ros` middleware selected. -/
def microConfig : Config := { sampleConfig with middleware := "micro-ros" }

/-- The concatenation that the final dict merge of `generate_config` amounts
to (the five partial mappings have pairwise disjoint key sets, so the
right-biased dict union never overwrites). -/
def mergedEnv (cfg : Config) (localWs bi bs tg ar sa dfn din dcn : String) :
    List (String × String) :=
  repo_env cfg ++ volumes_env localWs cfg.volumes ++ container_env_map cfg ++
    base_image_env bi cfg.ros2_distro bs ar sa ++ image_env dfn din dcn tg

/-- `sampleConfig` with a base-image template that contains the
`MIDDLEWARE` placeholder, which base-image substitution never replaces. -/
def c5Config : Config :=
  { sampleConfig with
    docker_base_images :=
      { sampleConfig.docker_base_images with
        x86_full_image := "base-MIDDLEWARE:ROS2_DISTRO" } }

theorem result_ret (p : List Diag) (r : Option (List (String × String))) :
    (PyResult.ret p r).result = r := rfl

/-- The final dict merge of `generate_config` computes the plain
concatenation of the five partial mappings: their key sets are pairwise
disjoint, so the right-biased union never updates an existing key. -/
theorem pyDictUnion_strata (cfg : Config) (localWs bi bs tg ar sa dfn din dcn : String) :
    pyDictUnion (pyDictUnion (pyDictUnion (pyDictUnion (repo_env cfg)
      (volumes_env localWs cfg.volumes)) (container_env_map cfg))
      (base_image_env bi cfg.ros2_distro bs ar sa)) (image_env dfn din dcn tg) =
    mergedEnv cfg localWs bi bs tg ar sa dfn din dcn := by
  simp [mergedEnv, pyDictUnion, updateOrAppend, repo_env, volumes_env, container_env_map,
    base_image_env, image_env]

/-- Lookups of the build/image keys in the merged environment. -/
theorem mergedEnv_lookup (cfg : Config) (localWs bi bs tg ar sa dfn din dcn : String) :
    (mergedEnv cfg localWs bi bs tg ar sa dfn din dcn).lookup "BUILD_STAGE" = some bs ∧
    (mergedEnv cfg localWs bi bs tg ar sa dfn din dcn).lookup "DOCKER_IMAGE_TAG" = some tg ∧
    (mergedEnv cfg localWs bi bs tg ar sa dfn din dcn).lookup "TARGET_ARCH" = some ar ∧
    (mergedEnv cfg localWs bi bs tg ar sa dfn din dcn).lookup "BASE_IMAGE" =
      some (pyReplace bi "ROS2_DISTRO" cfg.ros2_distro) ∧
    (mergedEnv cfg localWs bi bs tg ar sa dfn din dcn).lookup "DOCKERFILE" = some dfn ∧
    (mergedEnv cfg localWs bi bs tg ar sa dfn din dcn).lookup "DOCKER_IMAGE" = some din ∧
    (mergedEnv cfg localWs bi bs tg ar sa dfn din dcn).lookup "DOCKER_CONTAINER" = some dcn := by
  simp [mergedEnv, repo_env, volumes_env, container_env_map, base_image_env, image_env,
    List.lookup]

/-- A successful `finishConfig` returns exactly the merged environment
built from the branch parameters and the substituted names. -/
theorem finishConfig_success (fs : FS) (rcPath sourceArch : String) (cfg : Config)
    (localWs bi bs tg ar : String) (env : List (String × String))
    (h : (finishConfig fs rcPath sourceArch cfg localWs bi bs tg ar).result = some env) :
    env = mergedEnv cfg localWs bi bs tg ar sourceArch
      (pyReplace cfg.docker_file_image_container.dockerfile "MIDDLEWARE" cfg.middleware)
      (pyReplace (pyReplace (pyReplace cfg.docker_file_image_container.docker_image
        "REPO_AUTHOR" cfg.repo_author) "PROJECT_REPO" cfg.project_repo)
        "ROS2_DISTRO" cfg.ros2_distro)
      (pyReplace (pyReplace cfg.docker_file_image_container.docker_container
        "PROJECT_REPO" cfg.project_repo) "TAG" tg) := by
  simp only [finishConfig] at h
  split_ifs at h
  all_goals try exact Option.noConfusion h
  rw [result_ret, Option.some_inj] at h
  rw [pyDictUnion_strata] at h
  exact h.symm

/-- The substituted names as they appear in the merged environment of a
successful resolution, for an arbitrary selected base-image template. -/
theorem c5_body (cfg : Config) (localWs bi bs tg ar sa : String) :
    (mergedEnv cfg localWs bi bs tg ar sa
      (pyReplace cfg.docker_file_image_container.dockerfile "MIDDLEWARE" cfg.middleware)
      (pyReplace (pyReplace (pyReplace cfg.docker_file_image_container.docker_image
        "REPO_AUTHOR" cfg.repo_author) "PROJECT_REPO" cfg.project_repo)
        "ROS2_DISTRO" cfg.ros2_distro)
      (pyReplace (pyReplace cfg.docker_file_image_container.docker_container
        "PROJECT_REPO" cfg.project_repo) "TAG" tg)).lookup "DOCKERFILE" =
      some (pyReplace cfg.docker_file_image_container.dockerfile "MIDDLEWARE"
        cfg.middleware) ∧
    (mergedEnv cfg localWs bi bs tg ar sa
      (pyReplace cfg.docker_file_image_container.dockerfile "MIDDLEWARE" cfg.middleware)
      (pyReplace (pyReplace (pyReplace cfg.docker_file_image_container.docker_image
        "REPO_AUTHOR" cfg.repo_author) "PROJECT_REPO" cfg.project_repo)
        "ROS2_DISTRO" cfg.ros2_distro)
      (pyReplace (pyReplace cfg.docker_file_image_container.docker_container
        "PROJECT_REPO" cfg.project_repo) "TAG" tg)).lookup "DOCKER_IMAGE" =
      some (pyReplace (pyReplace (pyReplace cfg.docker_file_image_container.docker_image
        "REPO_AUTHOR" cfg.repo_author) "PROJECT_REPO" cfg.project_repo)
        "ROS2_DISTRO" cfg.ros2_distro) ∧
    (∀ tg2, (mergedEnv cfg localWs bi bs tg ar sa
      (pyReplace cfg.docker_file_image_container.dockerfile "MIDDLEWARE" cfg.middleware)
      (pyReplace (pyReplace (pyReplace cfg.docker_file_image_container.docker_image
        "REPO_AUTHOR" cfg.repo_author) "PROJECT_REPO" cfg.project_repo)
        "ROS2_DISTRO" cfg.ros2_distro)
      (pyReplace (pyReplace cfg.docker_file_image_container.docker_container
        "PROJECT_REPO" cfg.project_repo) "TAG" tg)).lookup "DOCKER_IMAGE_TAG" = some tg2 →
      (mergedEnv cfg localWs bi bs tg ar sa
        (pyReplace cfg.docker_file_image_container.dockerfile "MIDDLEWARE" cfg.middleware)
        (pyReplace (pyReplace (pyReplace cfg.docker_file_image_container.docker_image
          "REPO_AUTHOR" cfg.repo_author) "PROJECT_REPO" cfg.project_repo)
          "ROS2_DISTRO" cfg.ros2_distro)
        (pyReplace (pyReplace cfg.docker_file_image_container.docker_container
          "PROJECT_REPO" cfg.project_repo) "TAG" tg)).lookup "DOCKER_CONTAINER" =
        some (pyReplace (pyReplace cfg.docker_file_image_container.docker_container
          "PROJECT_REPO" cfg.project_repo) "TAG" tg2)) ∧
    (mergedEnv cfg localWs bi bs tg ar sa
      (pyReplace cfg.docker_file_image_container.dockerfile "MIDDLEWARE" cfg.middleware)
      (pyReplace (pyReplace (pyReplace cfg.docker_file_image_container.docker_image
        "REPO_AUTHOR" cfg.repo_author) "PROJECT_REPO" cfg.project_repo)
        "ROS2_DISTRO" cfg.ros2_distro)
      (pyReplace (pyReplace cfg.docker_file_image_container.docker_container
        "PROJECT_REPO" cfg.project_repo) "TAG" tg)).lookup "BASE_IMAGE" =
      some (pyReplace bi "ROS2_DISTRO" cfg.ros2_distro) := by
  have hl := mergedEnv_lookup cfg localWs bi bs tg ar sa
    (pyReplace cfg.docker_file_image_container.dockerfile "MIDDLEWARE" cfg.middleware)
    (pyReplace (pyReplace (pyReplace cfg.docker_file_image_container.docker_image
      "REPO_AUTHOR" cfg.repo_author) "PROJECT_REPO" cfg.project_repo)
      "ROS2_DISTRO" cfg.ros2_distro)
    (pyReplace (pyReplace cfg.docker_file_image_container.docker_container
      "PROJECT_REPO" cfg.project_repo) "TAG" tg)
  refine ⟨hl.2.2.2.2.1, hl.2.2.2.2.2.1, fun tg2 htg2 => ?_, hl.2.2.2.1⟩
  rw [hl.2.1] at htg2
  injection htg2 with e
  rw [← e]
  exact hl.2.2.2.2.2.2

/-- The normalizer of `src/run.py` never produces the token `armv7`: every
spelling beginning with `armv7` is folded into `arm`. -/
theorem run_normalize_ne_armv7 (t : String) : run.normalize_arch t ≠ "armv7" := by
  intro h
  simp only [run.normalize_arch] at h
  split_ifs at h with h1 h2 h3
  · exact absurd h (by decide)
  · exact absurd h (by decide)
  · exact absurd h (by decide)
  · rw [h] at h3
    exact h3 (by decide)

/-- Claim C3, counterexample: the claim says normalization sends `armv7` to
`armv7`, but the copy in `src/run.py` sends it to `arm`. -/
theorem claim_c3_counterexample :
    run.normalize_arch "armv7" = "arm" ∧ ("arm" : String) ≠ "armv7" := by decide

/-- Claim C3 (amended): both normalizers send the `arm64` spellings to
`aarch64`; the `src/build.py` copy sends the `armv7` spellings to `armv7`
while the `src/run.py` copy sends them to `arm`; any token whose trimmed,
lower-cased form matches none of the special spellings is returned trimmed
and lower-cased, with no error path. -/
theorem claim_c3_amended :
    (∀ a ∈ (["arm64", "ARM64", " arm64 "] : List String),
        build.normalize_arch a = "aarch64" ∧ run.normalize_arch a = "aarch64") ∧
    (∀ a ∈ (["armv7", "armv7l", "ARMV7L"] : List String),
        build.normalize_arch a = "armv7" ∧ run.normalize_arch a = "arm") ∧
    (∀ a : String,
      (pyLower (pystrip a) ≠ "arm64" →
       pyStartsWith (pyLower (pystrip a)) "armv7" = false →
       pyLower (pystrip a) ≠ "armv7l" →
       build.normalize_arch a = pyLower (pystrip a)) ∧
      (pyLower (pystrip a) ≠ "arm64" →
       pyLower (pystrip a) ≠ "arm" →
       pyLower (pystrip a) ≠ "armv7l" →
       pyStartsWith (pyLower (pystrip a)) "armv7" = false →
       run.normalize_arch a = pyLower (pystrip a))) := by
  refine ⟨by decide, by decide, fun a => ⟨fun h1 h2 h3 => ?_, fun h1 h2 h3 h4 => ?_⟩⟩
  · simp [build.normalize_arch, h1, h2, h3]
  · by_cases ha : a = ""
    · subst ha; decide
    · simp [run.normalize_arch, ha, h1, h2, h3, h4]

/-- Claim C3, witness for the amended passthrough clauses at the concrete
token `" RISCV"`. -/
theorem claim_c3_witness :
    build.normalize_arch " RISCV" = pyLower (pystrip " RISCV") ∧
    run.normalize_arch " RISCV" = pyLower (pystrip " RISCV") :=
  ⟨(claim_c3_amended.2.2 " RISCV").1 (by decide) (by decide) (by decide),
   (claim_c3_amended.2.2 " RISCV").2 (by decide) (by decide) (by decide) (by decide)⟩

/-- Claim C2, counterexample: for raw target token `armv7l` the selector in
`src/run.py` returns the arm64 flag, not the arm/v7 flag the claim
promises. -/
theorem claim_c2_counterexample :
    run.choose_platform_option "armv7l" "x86_64" = some "--platform=linux/arm64" ∧
    some "--platform=linux/arm64" ≠ some "--platform=linux/arm/v7" := by decide

/-- Claim C2 (amended): both platform option selectors ignore the source
architecture and map a normalized target in develop/x86_64 to the amd64
flag, in deploy/arm/aarch64 to the arm64 flag, and anything outside the
recognized tokens to no flag; the `src/build.py` selector returns the
arm/v7 flag when its normalized target is `armv7` (in particular for raw
token `armv7l`), while the `src/run.py` selector never returns the arm/v7
flag because its normalizer folds every `armv7` spelling into `arm`. -/
theorem claim_c2_amended (t s : String) :
    (build.normalize_arch t ∈ (["develop", "x86_64"] : List String) →
      build.choose_platform_option t s = some "--platform=linux/amd64") ∧
    (build.normalize_arch t ∈ (["deploy", "arm", "aarch64"] : List String) →
      build.choose_platform_option t s = some "--platform=linux/arm64") ∧
    (build.normalize_arch t = "armv7" →
      build.choose_platform_option t s = some "--platform=linux/arm/v7") ∧
    (build.normalize_arch t ∉
        (["develop", "x86_64", "deploy", "arm", "aarch64", "armv7"] : List String) →
      build.choose_platform_option t s = none) ∧
    build.normalize_arch "armv7l" = "armv7" ∧
    (run.normalize_arch t ∈ (["develop", "x86_64"] : List String) →
      run.choose_platform_option t s = some "--platform=linux/amd64") ∧
    (run.normalize_arch t ∈ (["deploy", "arm", "aarch64"] : List String) →
      run.choose_platform_option t s = some "--platform=linux/arm64") ∧
    (run.normalize_arch t ∉
        (["develop", "x86_64", "deploy", "arm", "aarch64"] : List String) →
      run.choose_platform_option t s = none) ∧
    run.normalize_arch "armv7l" = "arm" ∧
    (∀ f, run.choose_platform_option t s = some f → f ≠ "--platform=linux/arm/v7") ∧
    (∀ s2 : String, build.choose_platform_option t s = build.choose_platform_option t s2 ∧
      run.choose_platform_option t s = run.choose_platform_option t s2) := by
  refine ⟨?_, ?_, ?_, ?_, by decide, ?_, ?_, ?_, by decide, ?_, fun s2 => ⟨rfl, rfl⟩⟩
  · intro h
    simp only [List.mem_cons, List.not_mem_nil, or_false] at h
    rcases h with h | h <;> simp [build.choose_platform_option, h]
  · intro h
    simp only [List.mem_cons, List.not_mem_nil, or_false] at h
    rcases h with h | h | h <;> simp [build.choose_platform_option, h]
  · intro h
    simp [build.choose_platform_option, h]
  · intro h
    simp only [List.mem_cons, List.not_mem_nil, or_false, not_or] at h
    obtain ⟨h1, h2, h3, h4, h5, h6⟩ := h
    simp [build.choose_platform_option, h1, h2, h3, h4, h5, h6]
  · intro h
    simp only [List.mem_cons, List.not_mem_nil, or_false] at h
    rcases h with h | h <;> simp [run.choose_platform_option, h]
  · intro h
    simp only [List.mem_cons, List.not_mem_nil, or_false] at h
    rcases h with h | h | h <;> simp [run.choose_platform_option, h]
  · intro h
    simp only [List.mem_cons, List.not_mem_nil, or_false, not_or] at h
    obtain ⟨h1, h2, h3, h4, h5⟩ := h
    have h6 := run_normalize_ne_armv7 t
    simp [run.choose_platform_option, h1, h2, h3, h4, h5, h6]
  · intro f hf
    simp only [run.choose_platform_option] at hf
    split_ifs at hf with h1 h2 h3
    · simp only [Option.some.injEq] at hf
      subst hf; decide
    · simp only [Option.some.injEq] at hf
      subst hf; decide
    · exact absurd h3 (run_normalize_ne_armv7 t)

/-- Claim C2, witness: the amended mapping evaluated at the concrete raw
targets `armv7l` and `riscv64`. -/
theorem claim_c2_witness :
    build.choose_platform_option "armv7l" "x86_64" = some "--platform=linux/arm/v7" ∧
    run.choose_platform_option "armv7l" "x86_64" = some "--platform=linux/arm64" ∧
    build.choose_platform_option "riscv64" "x86_64" = none ∧
    run.choose_platform_option "riscv64" "x86_64" = none := by
  have h1 := claim_c2_amended "armv7l" "x86_64"
  have h2 := claim_c2_amended "riscv64" "x86_64"
  exact ⟨h1.2.2.1 (by decide), h1.2.2.2.2.2.2.1 (by decide),
    h2.2.2.2.1 (by decide), h2.2.2.2.2.2.2.2.1 (by decide)⟩

/-- Claim C10: a configuration lacking the `target_platorm` key makes
`generate_config` raise an uncaught `KeyError` (no printed diagnostic, no
typed failure) regardless of every other input — in particular before any
validation check runs — and the value of that key is never used: resolution
does not depend on it. -/
theorem claim_c10 (fs : FS) (rootDir rcPath sourceArch : String) (cfg : Config)
    (t : String) :
    (cfg.target_platorm = none →
      generate_config fs rootDir rcPath sourceArch cfg t = .crash "target_platorm" ∧
      (generate_config fs rootDir rcPath sourceArch cfg t).printed = []) ∧
    (∀ a b : String,
      generate_config fs rootDir rcPath sourceArch { cfg with target_platorm := some a } t =
      generate_config fs rootDir rcPath sourceArch { cfg with target_platorm := some b } t) := by
  constructor
  · intro hp
    have h : generate_config fs rootDir rcPath sourceArch cfg t = .crash "target_platorm" := by
      simp only [generate_config]
      rw [hp]
    exact ⟨h, by rw [h]; rfl⟩
  · intro a b
    rfl

/-- Claim C10, witness: the sample configuration with the key removed
crashes even though its target architecture is supported. -/
theorem claim_c10_witness :
    generate_config sampleFS "/root/ws" "/root/ws/rc" "x86_64"
      { sampleConfig with target_platorm := none } "develop" = .crash "target_platorm" :=
  (claim_c10 sampleFS "/root/ws" "/root/ws/rc" "x86_64"
    { sampleConfig with target_platorm := none } "develop").1 rfl |>.1

/-- Claim C8: when the target architecture is outside the declared
supported set, resolution fails with the unsupported-architecture
diagnostic; when the target is supported but the middleware is outside the
declared supported set, it fails with the unsupported-middleware
diagnostic; in both cases the persisted `.env` store is left unchanged. -/
theorem claim_c8 (fs : FS) (rootDir rcPath sourceArch : String) (cfg : Config)
    (t : String) (store : Option (List Char)) (p : String)
    (hp : cfg.target_platorm = some p) :
    (t ∉ cfg.supported.architectures →
      generate_config fs rootDir rcPath sourceArch cfg t =
        .ret [.unsupportedArchitecture t cfg.supported.architectures] none ∧
      mainStep fs rootDir rcPath sourceArch cfg t store = store) ∧
    (t ∈ cfg.supported.architectures → cfg.middleware ∉ cfg.supported.middlewares →
      generate_config fs rootDir rcPath sourceArch cfg t =
        .ret [.unsupportedMiddleware cfg.middleware cfg.supported.middlewares] none ∧
      mainStep fs rootDir rcPath sourceArch cfg t store = store) := by
  constructor
  · intro ha
    have h : generate_config fs rootDir rcPath sourceArch cfg t =
        .ret [.unsupportedArchitecture t cfg.supported.architectures] none := by
      simp only [generate_config]
      rw [hp]
      simp [ha]
    exact ⟨h, by simp [mainStep, h, PyResult.result]⟩
  · intro ha hm
    have h : generate_config fs rootDir rcPath sourceArch cfg t =
        .ret [.unsupportedMiddleware cfg.middleware cfg.supported.middlewares] none := by
      simp only [generate_config]
      rw [hp]
      simp [ha, hm]
    exact ⟨h, by simp [mainStep, h, PyResult.result]⟩

/-- Claim C8, witness: concrete unsupported target and concrete unsupported
middleware, with a non-empty persisted store left untouched. -/
theorem claim_c8_witness :
    generate_config sampleFS "/root/ws" "/root/ws/rc" "x86_64" sampleConfig "riscv" =
      .ret [.unsupportedArchitecture "riscv" ["develop", "deploy", "x86_64", "arm", "aarch64"]]
        none ∧
    mainStep sampleFS "/root/ws" "/root/ws/rc" "x86_64" sampleConfig "riscv"
      (some "OLD=1\n".data) = some "OLD=1\n".data ∧
    generate_config sampleFS "/root/ws" "/root/ws/rc" "x86_64" c4Config "develop" =
      .ret [.unsupportedMiddleware "ros1" ["ros2", "micro-ros"]] none ∧
    mainStep sampleFS "/root/ws" "/root/ws/rc" "x86_64" c4Config "develop"
      (some "OLD=1\n".data) = some "OLD=1\n".data := by
  have h1 := (claim_c8 sampleFS "/root/ws" "/root/ws/rc" "x86_64" sampleConfig "riscv"
    (some "OLD=1\n".data) "linux/arm64" rfl).1 (by decide)
  have h2 := (claim_c8 sampleFS "/root/ws" "/root/ws/rc" "x86_64" c4Config "develop"
    (some "OLD=1\n".data) "linux/arm64" rfl).2 (by decide) (by decide)
  exact ⟨h1.1, h1.2, h2.1, h2.2⟩

/-- Claim C4, counterexample: on a configuration violating both the
architecture check and the middleware check, only the architecture
diagnostic is reported — the middleware check is skipped, so the validator
does short-circuit at the first failing check. -/
theorem claim_c4_counterexample :
    c4Config.middleware ∉ c4Config.supported.middlewares ∧
    (generate_config sampleFS "/root/ws" "/root/ws/rc" "x86_64" c4Config "riscv").printed =
      [.unsupportedArchitecture "riscv" ["develop", "deploy", "x86_64", "arm", "aarch64"]] ∧
    Diag.unsupportedMiddleware "ros1" ["ros2", "micro-ros"] ∉
      (generate_config sampleFS "/root/ws" "/root/ws/rc" "x86_64" c4Config "riscv").printed := by
  decide

/-- Claim C4 (amended): the validator runs its checks in the fixed order
architecture, middleware, distribution, repository path, extra volume
paths, and stops at the first failing check, reporting exactly that one
diagnostic; being a pure function of the configuration, target and
filesystem state, repeated invocation reports the same first blocking
failure. -/
theorem claim_c4_amended (fs : FS) (rootDir rcPath sourceArch : String) (cfg : Config)
    (t p : String) (hp : cfg.target_platorm = some p) :
    (t ∉ cfg.supported.architectures →
      generate_config fs rootDir rcPath sourceArch cfg t =
        .ret [.unsupportedArchitecture t cfg.supported.architectures] none) ∧
    (t ∈ cfg.supported.architectures → cfg.middleware ∉ cfg.supported.middlewares →
      generate_config fs rootDir rcPath sourceArch cfg t =
        .ret [.unsupportedMiddleware cfg.middleware cfg.supported.middlewares] none) ∧
    (t ∈ cfg.supported.architectures → cfg.middleware ∈ cfg.supported.middlewares →
      cfg.ros2_distro ∉ cfg.supported.ros2_distros →
      generate_config fs rootDir rcPath sourceArch cfg t =
        .ret [.unsupportedRos2Distro cfg.ros2_distro cfg.supported.ros2_distros] none) ∧
    (t ∈ cfg.supported.architectures → cfg.middleware ∈ cfg.supported.middlewares →
      cfg.ros2_distro ∈ cfg.supported.ros2_distros →
      fs.isDir (joinPath rootDir cfg.project_repo) = false →
      generate_config fs rootDir rcPath sourceArch cfg t =
        .ret [.missingDir (joinPath rootDir cfg.project_repo)] none) ∧
    (∀ v, t ∈ cfg.supported.architectures → cfg.middleware ∈ cfg.supported.middlewares →
      cfg.ros2_distro ∈ cfg.supported.ros2_distros →
      fs.isDir (joinPath rootDir cfg.project_repo) = true →
      cfg.volumes.find? (fun x => ! fs.isDir x) = some v →
      generate_config fs rootDir rcPath sourceArch cfg t =
        .ret [.missingDir v] none) := by
  refine ⟨fun h1 => ?_, fun h1 h2 => ?_, fun h1 h2 h3 => ?_, fun h1 h2 h3 h4 => ?_,
    fun v h1 h2 h3 h4 h5 => ?_⟩ <;>
    (simp only [generate_config]; rw [hp])
  · simp [h1]
  · simp [h1, h2]
  · simp [h1, h2, h3]
  · simp [h1, h2, h3, h4]
  · simp [h1, h2, h3, h4, h5]

/-- Claim C4, witness: the first two strata of the amended ordering at
concrete configurations. -/
theorem claim_c4_witness :
    generate_config sampleFS "/root/ws" "/root/ws/rc" "x86_64" c4Config "riscv" =
      .ret [.unsupportedArchitecture "riscv" ["develop", "deploy", "x86_64", "arm", "aarch64"]]
        none ∧
    generate_config sampleFS "/root/ws" "/root/ws/rc" "x86_64" c4Config "develop" =
      .ret [.unsupportedMiddleware "ros1" ["ros2", "micro-ros"]] none := by
  have h := claim_c4_amended sampleFS "/root/ws" "/root/ws/rc" "x86_64" c4Config "riscv"
    "linux/arm64" rfl
  have h2 := claim_c4_amended sampleFS "/root/ws" "/root/ws/rc" "x86_64" c4Config "develop"
    "linux/arm64" rfl
  exact ⟨h.1 (by decide), h2.2.1 (by decide) (by decide)⟩

/-- Claim C7: for middleware `micro-ros`, any target architecture other
than the two alias tokens `develop` and `deploy` never produces a resolved
environment, and — whenever the generic validation checks pass so that
control reaches the middleware branch (and equally when the target is
outside the supported set) — the failure is the unsupported-architecture
diagnostic.  In particular this applies to the concrete token `aarch64`. -/
theorem claim_c7 (fs : FS) (rootDir rcPath sourceArch : String) (cfg : Config) (t : String)
    (hmw : cfg.middleware = "micro-ros") (ht : t ∉ (["develop", "deploy"] : List String)) :
    (generate_config fs rootDir rcPath sourceArch cfg t).result = none ∧
    (∀ p, cfg.target_platorm = some p → t ∈ cfg.supported.architectures →
      "micro-ros" ∈ cfg.supported.middlewares →
      cfg.ros2_distro ∈ cfg.supported.ros2_distros →
      fs.isDir (joinPath rootDir cfg.project_repo) = true →
      (∀ v ∈ cfg.volumes, fs.isDir v = true) →
      generate_config fs rootDir rcPath sourceArch cfg t =
        .ret [.unsupportedArchitecture t cfg.supported.architectures] none) := by
  simp only [List.mem_cons, List.not_mem_nil, or_false, not_or] at ht
  obtain ⟨ht1, ht2⟩ := ht
  have h5 : t ∉ (["develop"] : List String) := by simp [ht1]
  have h6 : t ∉ (["deploy"] : List String) := by simp [ht2]
  constructor
  · simp only [generate_config]
    cases cfg.target_platorm with
    | none => rfl
    | some p =>
      rw [hmw, if_neg (by decide : ¬ ("micro-ros" : String) = "ros2"),
        if_pos (rfl : ("micro-ros" : String) = "micro-ros"), if_neg h5, if_neg h6]
      split_ifs <;> try rfl
      cases List.find? (fun v => !fs.isDir v) cfg.volumes <;> rfl
  · intro p hp h1 h2 h3 h4 hv
    have hfind : cfg.volumes.find? (fun x => ! fs.isDir x) = none := by
      rw [List.find?_eq_none]
      intro x hx
      simp [hv x hx]
    simp only [generate_config]
    rw [hp, hmw, if_neg (not_not_intro h1), if_neg (not_not_intro h2),
      if_neg (not_not_intro h3), if_neg (not_not_intro h4), hfind,
      if_neg (by decide : ¬ ("micro-ros" : String) = "ros2"),
      if_pos (rfl : ("micro-ros" : String) = "micro-ros"), if_neg h5, if_neg h6]

/-- Claim C7, witness: `micro-ros` with the concrete (supported) target
token `aarch64` fails with the unsupported-architecture diagnostic. -/
theorem claim_c7_witness :
    generate_config sampleFS "/root/ws" "/root/ws/rc" "x86_64" microConfig "aarch64" =
      .ret [.unsupportedArchitecture "aarch64"
        ["develop", "deploy", "x86_64", "arm", "aarch64"]] none :=
  (claim_c7 sampleFS "/root/ws" "/root/ws/rc" "x86_64" microConfig "aarch64" rfl
    (by decide)).2 "linux/arm64" rfl (by decide) (by decide) (by decide) (by decide)
    (by decide)

/-- Claim C1: with middleware `ros2`, a resolution that succeeds on target
`develop` binds build stage `develop-stage`, tag `develop` and resolved
architecture token `x86_64` in the environment, and one that succeeds on
target `deploy` binds `deploy-stage`, `deploy` and `arm`. -/
theorem claim_c1 (fs : FS) (rootDir rcPath sourceArch : String) (cfg : Config)
    (hmw : cfg.middleware = "ros2") :
    (∀ env, (generate_config fs rootDir rcPath sourceArch cfg "develop").result = some env →
      env.lookup "BUILD_STAGE" = some "develop-stage" ∧
      env.lookup "DOCKER_IMAGE_TAG" = some "develop" ∧
      env.lookup "TARGET_ARCH" = some "x86_64") ∧
    (∀ env, (generate_config fs rootDir rcPath sourceArch cfg "deploy").result = some env →
      env.lookup "BUILD_STAGE" = some "deploy-stage" ∧
      env.lookup "DOCKER_IMAGE_TAG" = some "deploy" ∧
      env.lookup "TARGET_ARCH" = some "arm") := by
  constructor
  · intro env h
    simp only [generate_config] at h
    rcases hcp : cfg.target_platorm with _ | p <;> rw [hcp] at h
    · simp [PyResult.result] at h
    · rw [hmw, if_pos (rfl : ("ros2" : String) = "ros2"),
        if_pos (by decide : ("develop" : String) ∈ (["develop", "x86_64"] : List String))] at h
      split_ifs at h <;> try simp [PyResult.result] at h
      cases hfind : List.find? (fun v => !fs.isDir v) cfg.volumes <;> rw [hfind] at h
      · simp only [finishConfig] at h
        split_ifs at h <;> try simp [PyResult.result] at h
        rw [pyDictUnion_strata] at h
        subst h
        have hl := mergedEnv_lookup cfg (joinPath rootDir cfg.project_repo)
          cfg.docker_base_images.x86_full_image "develop-stage" "develop" "x86_64" sourceArch
          (pyReplace cfg.docker_file_image_container.dockerfile "MIDDLEWARE" "ros2")
          (pyReplace (pyReplace (pyReplace cfg.docker_file_image_container.docker_image
            "REPO_AUTHOR" cfg.repo_author) "PROJECT_REPO" cfg.project_repo)
            "ROS2_DISTRO" cfg.ros2_distro)
          (pyReplace (pyReplace cfg.docker_file_image_container.docker_container
            "PROJECT_REPO" cfg.project_repo) "TAG" "develop")
        exact ⟨hl.1, hl.2.1, hl.2.2.1⟩
      · simp [PyResult.result] at h
  · intro env h
    simp only [generate_config] at h
    rcases hcp : cfg.target_platorm with _ | p <;> rw [hcp] at h
    · simp [PyResult.result] at h
    · rw [hmw, if_pos (rfl : ("ros2" : String) = "ros2"),
        if_neg (by decide : ¬ ("deploy" : String) ∈ (["develop", "x86_64"] : List String)),
        if_pos (by decide :
          ("deploy" : String) ∈ (["deploy", "arm", "aarch64"] : List String))] at h
      split_ifs at h <;> try simp [PyResult.result] at h
      cases hfind : List.find? (fun v => !fs.isDir v) cfg.volumes <;> rw [hfind] at h
      · simp only [finishConfig] at h
        split_ifs at h <;> try simp [PyResult.result] at h
        rw [pyDictUnion_strata] at h
        subst h
        have hl := mergedEnv_lookup cfg (joinPath rootDir cfg.project_repo)
          cfg.docker_base_images.arm_base_image "deploy-stage" "deploy" "arm" sourceArch
          (pyReplace cfg.docker_file_image_container.dockerfile "MIDDLEWARE" "ros2")
          (pyReplace (pyReplace (pyReplace cfg.docker_file_image_container.docker_image
            "REPO_AUTHOR" cfg.repo_author) "PROJECT_REPO" cfg.project_repo)
            "ROS2_DISTRO" cfg.ros2_distro)
          (pyReplace (pyReplace cfg.docker_file_image_container.docker_container
            "PROJECT_REPO" cfg.project_repo) "TAG" "deploy")
        exact ⟨hl.1, hl.2.1, hl.2.2.1⟩
      · simp [PyResult.result] at h

/-- Claim C1, witness: the sample `ros2` configuration resolves on both
alias targets with the claimed stage, tag and architecture token. -/
theorem claim_c1_witness :
    ((generate_config sampleFS "/root/ws" "/root/ws/rc" "x86_64" sampleConfig
        "develop").result.getD []).lookup "BUILD_STAGE" = some "develop-stage" ∧
    ((generate_config sampleFS "/root/ws" "/root/ws/rc" "x86_64" sampleConfig
        "develop").result.getD []).lookup "DOCKER_IMAGE_TAG" = some "develop" ∧
    ((generate_config sampleFS "/root/ws" "/root/ws/rc" "x86_64" sampleConfig
        "develop").result.getD []).lookup "TARGET_ARCH" = some "x86_64" ∧
    ((generate_config sampleFS "/root/ws" "/root/ws/rc" "x86_64" sampleConfig
        "deploy").result.getD []).lookup "BUILD_STAGE" = some "deploy-stage" ∧
    ((generate_config sampleFS "/root/ws" "/root/ws/rc" "x86_64" sampleConfig
        "deploy").result.getD []).lookup "DOCKER_IMAGE_TAG" = some "deploy" ∧
    ((generate_config sampleFS "/root/ws" "/root/ws/rc" "x86_64" sampleConfig
        "deploy").result.getD []).lookup "TARGET_ARCH" = some "arm" := by
  have hc := claim_c1 sampleFS "/root/ws" "/root/ws/rc" "x86_64" sampleConfig rfl
  have h1 := hc.1 ((generate_config sampleFS "/root/ws" "/root/ws/rc" "x86_64" sampleConfig
    "develop").result.getD []) (by decide)
  have h2 := hc.2 ((generate_config sampleFS "/root/ws" "/root/ws/rc" "x86_64" sampleConfig
    "deploy").result.getD []) (by decide)
  exact ⟨h1.1, h1.2.1, h1.2.2, h2.1, h2.2.1, h2.2.2⟩

/-- Claim C5, counterexample: a base-image template containing the
`MIDDLEWARE` placeholder resolves successfully with no diagnostic, and the
placeholder leaks verbatim into the generated `BASE_IMAGE` value — an
unresolved placeholder does not surface as a named failure. -/
theorem claim_c5_counterexample :
    (generate_config sampleFS "/root/ws" "/root/ws/rc" "x86_64" c5Config "develop").printed =
      [] ∧
    ((generate_config sampleFS "/root/ws" "/root/ws/rc" "x86_64" c5Config
        "develop").result.getD []).lookup "BASE_IMAGE" = some "base-MIDDLEWARE:humble" ∧
    (generate_config sampleFS "/root/ws" "/root/ws/rc" "x86_64" c5Config "develop").result ≠
      none ∧
    "MIDDLEWARE".data <:+: ("base-MIDDLEWARE:humble" : String).data := by
  decide

/-- Claim C5 (amended): substitution replaces a fixed per-template set of
placeholders — `MIDDLEWARE` in the dockerfile name; `REPO_AUTHOR`,
`PROJECT_REPO` and `ROS2_DISTRO` in the image name; `PROJECT_REPO` and
`TAG` in the container name; only `ROS2_DISTRO` in the selected base-image
template — and every other placeholder passes through unchanged into the
generated names, with no failure for unresolved placeholders. -/
theorem claim_c5_amended (fs : FS) (rootDir rcPath sourceArch : String) (cfg : Config)
    (t : String) (env : List (String × String))
    (h : (generate_config fs rootDir rcPath sourceArch cfg t).result = some env) :
    env.lookup "DOCKERFILE" =
      some (pyReplace cfg.docker_file_image_container.dockerfile "MIDDLEWARE"
        cfg.middleware) ∧
    env.lookup "DOCKER_IMAGE" =
      some (pyReplace (pyReplace (pyReplace cfg.docker_file_image_container.docker_image
        "REPO_AUTHOR" cfg.repo_author) "PROJECT_REPO" cfg.project_repo)
        "ROS2_DISTRO" cfg.ros2_distro) ∧
    (∀ tg, env.lookup "DOCKER_IMAGE_TAG" = some tg →
      env.lookup "DOCKER_CONTAINER" =
        some (pyReplace (pyReplace cfg.docker_file_image_container.docker_container
          "PROJECT_REPO" cfg.project_repo) "TAG" tg)) ∧
    (env.lookup "BASE_IMAGE" =
        some (pyReplace cfg.docker_base_images.x86_full_image "ROS2_DISTRO"
          cfg.ros2_distro) ∨
     env.lookup "BASE_IMAGE" =
        some (pyReplace cfg.docker_base_images.arm_base_image "ROS2_DISTRO"
          cfg.ros2_distro) ∨
     env.lookup "BASE_IMAGE" =
        some (pyReplace cfg.docker_base_images.microros_base_image "ROS2_DISTRO"
          cfg.ros2_distro)) := by
  simp only [generate_config] at h
  rcases hcp : cfg.target_platorm with _ | p <;> rw [hcp] at h
  · exact Option.noConfusion h
  · by_cases h1 : t ∉ cfg.supported.architectures
    · rw [if_pos h1] at h
      exact Option.noConfusion h
    · rw [if_neg h1] at h
      by_cases h2 : cfg.middleware ∉ cfg.supported.middlewares
      · rw [if_pos h2] at h
        exact Option.noConfusion h
      · rw [if_neg h2] at h
        by_cases h3 : cfg.ros2_distro ∉ cfg.supported.ros2_distros
        · rw [if_pos h3] at h
          exact Option.noConfusion h
        · rw [if_neg h3] at h
          by_cases h4 : ¬ fs.isDir (joinPath rootDir cfg.project_repo) = true
          · rw [if_pos h4] at h
            exact Option.noConfusion h
          · rw [if_neg h4] at h
            cases hfind : List.find? (fun v => !fs.isDir v) cfg.volumes with
            | some v =>
              rw [hfind] at h
              exact Option.noConfusion h
            | none =>
              rw [hfind] at h
              by_cases h5 : cfg.middleware = "ros2"
              · rw [if_pos h5] at h
                by_cases h6 : t ∈ (["develop", "x86_64"] : List String)
                · rw [if_pos h6] at h
                  have he := finishConfig_success _ _ _ _ _ _ _ _ _ _ h
                  subst he
                  have hb := c5_body cfg (joinPath rootDir cfg.project_repo)
                    cfg.docker_base_images.x86_full_image "develop-stage" "develop" "x86_64"
                    sourceArch
                  exact ⟨hb.1, hb.2.1, hb.2.2.1, Or.inl hb.2.2.2⟩
                · rw [if_neg h6] at h
                  by_cases h7 : t ∈ (["deploy", "arm", "aarch64"] : List String)
                  · rw [if_pos h7] at h
                    have he := finishConfig_success _ _ _ _ _ _ _ _ _ _ h
                    subst he
                    have hb := c5_body cfg (joinPath rootDir cfg.project_repo)
                      cfg.docker_base_images.arm_base_image "deploy-stage" "deploy" "arm"
                      sourceArch
                    exact ⟨hb.1, hb.2.1, hb.2.2.1, Or.inr (Or.inl hb.2.2.2)⟩
                  · rw [if_neg h7] at h
                    exact Option.noConfusion h
              · rw [if_neg h5] at h
                by_cases h8 : cfg.middleware = "micro-ros"
                · rw [if_pos h8] at h
                  by_cases h9 : t ∈ (["develop"] : List String)
                  · rw [if_pos h9] at h
                    have he := finishConfig_success _ _ _ _ _ _ _ _ _ _ h
                    subst he
                    have hb := c5_body cfg (joinPath rootDir cfg.project_repo)
                      cfg.docker_base_images.microros_base_image "develop-stage" "develop"
                      "x86_64" sourceArch
                    exact ⟨hb.1, hb.2.1, hb.2.2.1, Or.inr (Or.inr hb.2.2.2)⟩
                  · rw [if_neg h9] at h
                    by_cases h10 : t ∈ (["deploy"] : List String)
                    · rw [if_pos h10] at h
                      have he := finishConfig_success _ _ _ _ _ _ _ _ _ _ h
                      subst he
                      have hb := c5_body cfg (joinPath rootDir cfg.project_repo)
                        cfg.docker_base_images.microros_base_image "deploy-stage" "deploy"
                        "arm" sourceArch
                      exact ⟨hb.1, hb.2.1, hb.2.2.1, Or.inr (Or.inr hb.2.2.2)⟩
                    · rw [if_neg h10] at h
                      exact Option.noConfusion h
                · rw [if_neg h8] at h
                  exact Option.noConfusion h

/-- Claim C5, witness: the amended substitution equations at the sample
configuration on target `develop`. -/
theorem claim_c5_witness :
    ((generate_config sampleFS "/root/ws" "/root/ws/rc" "x86_64" sampleConfig
        "develop").result.getD []).lookup "DOCKERFILE" =
      some (pyReplace sampleConfig.docker_file_image_container.dockerfile "MIDDLEWARE"
        sampleConfig.middleware) ∧
    ((generate_config sampleFS "/root/ws" "/root/ws/rc" "x86_64" sampleConfig
        "develop").result.getD []).lookup "DOCKER_CONTAINER" =
      some (pyReplace (pyReplace sampleConfig.docker_file_image_container.docker_container
        "PROJECT_REPO" sampleConfig.project_repo) "TAG" "develop") := by
  have h := claim_c5_amended sampleFS "/root/ws" "/root/ws/rc" "x86_64" sampleConfig "develop"
    ((generate_config sampleFS "/root/ws" "/root/ws/rc" "x86_64" sampleConfig
      "develop").result.getD []) (by decide)
  exact ⟨h.1, h.2.2.1 "develop" (by decide)⟩

/-- Claim C6: the five partial mappings merged at the end of
`generate_config` have pairwise-distinct keys (the full key list is
duplicate-free), the right-biased dict merge therefore equals plain
concatenation in the fixed order, and looking up any key of a stratum in
the merged result returns that stratum's value. -/
theorem claim_c6 (cfg : Config) (localWs bi bs tg ar sa dfn din dcn : String) :
    ((repo_env cfg).map Prod.fst ++ (volumes_env localWs cfg.volumes).map Prod.fst ++
      (container_env_map cfg).map Prod.fst ++
      (base_image_env bi cfg.ros2_distro bs ar sa).map Prod.fst ++
      (image_env dfn din dcn tg).map Prod.fst).Nodup ∧
    pyDictUnion (pyDictUnion (pyDictUnion (pyDictUnion (repo_env cfg)
      (volumes_env localWs cfg.volumes)) (container_env_map cfg))
      (base_image_env bi cfg.ros2_distro bs ar sa)) (image_env dfn din dcn tg) =
    repo_env cfg ++ volumes_env localWs cfg.volumes ++ container_env_map cfg ++
      base_image_env bi cfg.ros2_distro bs ar sa ++ image_env dfn din dcn tg ∧
    (∀ k, k ∈ (repo_env cfg).map Prod.fst →
      (pyDictUnion (pyDictUnion (pyDictUnion (pyDictUnion (repo_env cfg)
        (volumes_env localWs cfg.volumes)) (container_env_map cfg))
        (base_image_env bi cfg.ros2_distro bs ar sa)) (image_env dfn din dcn tg)).lookup k =
      (repo_env cfg).lookup k) ∧
    (∀ k, k ∈ (volumes_env localWs cfg.volumes).map Prod.fst →
      (pyDictUnion (pyDictUnion (pyDictUnion (pyDictUnion (repo_env cfg)
        (volumes_env localWs cfg.volumes)) (container_env_map cfg))
        (base_image_env bi cfg.ros2_distro bs ar sa)) (image_env dfn din dcn tg)).lookup k =
      (volumes_env localWs cfg.volumes).lookup k) ∧
    (∀ k, k ∈ (container_env_map cfg).map Prod.fst →
      (pyDictUnion (pyDictUnion (pyDictUnion (pyDictUnion (repo_env cfg)
        (volumes_env localWs cfg.volumes)) (container_env_map cfg))
        (base_image_env bi cfg.ros2_distro bs ar sa)) (image_env dfn din dcn tg)).lookup k =
      (container_env_map cfg).lookup k) ∧
    (∀ k, k ∈ (base_image_env bi cfg.ros2_distro bs ar sa).map Prod.fst →
      (pyDictUnion (pyDictUnion (pyDictUnion (pyDictUnion (repo_env cfg)
        (volumes_env localWs cfg.volumes)) (container_env_map cfg))
        (base_image_env bi cfg.ros2_distro bs ar sa)) (image_env dfn din dcn tg)).lookup k =
      (base_image_env bi cfg.ros2_distro bs ar sa).lookup k) ∧
    (∀ k, k ∈ (image_env dfn din dcn tg).map Prod.fst →
      (pyDictUnion (pyDictUnion (pyDictUnion (pyDictUnion (repo_env cfg)
        (volumes_env localWs cfg.volumes)) (container_env_map cfg))
        (base_image_env bi cfg.ros2_distro bs ar sa)) (image_env dfn din dcn tg)).lookup k =
      (image_env dfn din dcn tg).lookup k) := by
  refine ⟨?_, ?_, ?_, ?_, ?_, ?_, ?_⟩
  · show (["REPO_AUTHOR", "PROJECT_REPO"] ++ ["LOCAL_WS_PATH", "VOLUMES"] ++
      ["CONTAINER_USR", "CONTAINER_PSW", "CONTAINER_UID", "CONTAINER_GID", "CONTAINER_HOME",
        "CONTAINER_WS", "CONTAINER_RUN_CMD"] ++
      ["BASE_IMAGE", "BUILD_STAGE", "TARGET_ARCH", "SOURCE_ARCH"] ++
      ["DOCKERFILE", "DOCKER_IMAGE", "DOCKER_CONTAINER", "DOCKER_IMAGE_TAG"] :
        List String).Nodup
    decide
  · rw [pyDictUnion_strata]
    rfl
  · intro k hk
    rw [pyDictUnion_strata]
    simp only [repo_env, List.map_cons, List.map_nil, List.mem_cons, List.not_mem_nil,
      or_false] at hk
    rcases hk with rfl | rfl <;>
      simp [mergedEnv, repo_env, volumes_env, container_env_map, base_image_env, image_env,
        List.lookup]
  · intro k hk
    rw [pyDictUnion_strata]
    simp only [volumes_env, List.map_cons, List.map_nil, List.mem_cons, List.not_mem_nil,
      or_false] at hk
    rcases hk with rfl | rfl <;>
      simp [mergedEnv, repo_env, volumes_env, container_env_map, base_image_env, image_env,
        List.lookup]
  · intro k hk
    rw [pyDictUnion_strata]
    simp only [container_env_map, List.map_cons, List.map_nil, List.mem_cons,
      List.not_mem_nil, or_false] at hk
    rcases hk with rfl | rfl | rfl | rfl | rfl | rfl | rfl <;>
      simp [mergedEnv, repo_env, volumes_env, container_env_map, base_image_env, image_env,
        List.lookup]
  · intro k hk
    rw [pyDictUnion_strata]
    simp only [base_image_env, List.map_cons, List.map_nil, List.mem_cons,
      List.not_mem_nil, or_false] at hk
    rcases hk with rfl | rfl | rfl | rfl <;>
      simp [mergedEnv, repo_env, volumes_env, container_env_map, base_image_env, image_env,
        List.lookup]
  · intro k hk
    rw [pyDictUnion_strata]
    simp only [image_env, List.map_cons, List.map_nil, List.mem_cons, List.not_mem_nil,
      or_false] at hk
    rcases hk with rfl | rfl | rfl | rfl <;>
      simp [mergedEnv, repo_env, volumes_env, container_env_map, base_image_env, image_env,
        List.lookup]

/-- Claim C6, witness: the stratum-lookup clauses instantiated at concrete
keys of the first and last strata. -/
theorem claim_c6_witness :
    (pyDictUnion (pyDictUnion (pyDictUnion (pyDictUnion (repo_env sampleConfig)
      (volumes_env "/w" sampleConfig.volumes)) (container_env_map sampleConfig))
      (base_image_env "b" sampleConfig.ros2_distro "s" "a" "m"))
      (image_env "df" "di" "dc" "tg")).lookup "REPO_AUTHOR" =
      (repo_env sampleConfig).lookup "REPO_AUTHOR" ∧
    (pyDictUnion (pyDictUnion (pyDictUnion (pyDictUnion (repo_env sampleConfig)
      (volumes_env "/w" sampleConfig.volumes)) (container_env_map sampleConfig))
      (base_image_env "b" sampleConfig.ros2_distro "s" "a" "m"))
      (image_env "df" "di" "dc" "tg")).lookup "DOCKER_IMAGE_TAG" =
      (image_env "df" "di" "dc" "tg").lookup "DOCKER_IMAGE_TAG" :=
  ⟨(claim_c6 sampleConfig "/w" "b" "s" "tg" "a" "m" "df" "di" "dc").2.2.1 "REPO_AUTHOR"
      (by decide),
   (claim_c6 sampleConfig "/w" "b" "s" "tg" "a" "m" "df" "di" "dc").2.2.2.2.2.2 "DOCKER_IMAGE_TAG"
      (by decide)⟩

theorem dropWhile_append_invariant (l m : List Char) (c : Char)
    (hc : isPySpace c = false) (hl : l.dropWhile isPySpace = l) :
    (l ++ c :: m).dropWhile isPySpace = l ++ c :: m := by
  cases l with
  | nil => simp [List.dropWhile_cons, hc]
  | cons a t =>
    have ha : isPySpace a = false := by
      have h0 := List.dropWhile_eq_self_iff.mp hl (by simp)
      simpa using h0
    simp [List.dropWhile_cons, ha]

theorem pystripL_invariant (l : List Char) (h1 : l.dropWhile isPySpace = l)
    (h2 : l.reverse.dropWhile isPySpace = l.reverse) : pystripL l = l := by
  unfold pystripL
  rw [h1, h2, List.reverse_reverse]

theorem pystripL_line (k v : List Char) (hk : k.dropWhile isPySpace = k)
    (hv : v.reverse.dropWhile isPySpace = v.reverse) :
    pystripL (k ++ '=' :: v) = k ++ '=' :: v := by
  unfold pystripL
  rw [dropWhile_append_invariant k v '=' (by decide) hk]
  have hrev : (k ++ '=' :: v).reverse = v.reverse ++ '=' :: k.reverse := by
    simp
  rw [hrev, dropWhile_append_invariant v.reverse k.reverse '=' (by decide) hv, ← hrev,
    List.reverse_reverse]

theorem splitEq_append (k v : List Char) (hk : '=' ∉ k) :
    splitEq (k ++ '=' :: v) = some (k, v) := by
  induction k with
  | nil => rfl
  | cons c t ih =>
    have hc : ¬ c = '=' := by
      intro he
      exact hk (by simp [he])
    have ht : '=' ∉ t := fun hm => hk (by simp [hm])
    simp [splitEq, hc, ih ht]

theorem parseLine_line (k v : String) (hk : goodKey k) (hv : goodVal v) :
    parseLine (k.data ++ '=' :: v.data) = some (k, v) := by
  obtain ⟨hk1, hk2, hk3, hk4, hk5⟩ := hk
  obtain ⟨hv1, hv2, hv3⟩ := hv
  have hstrip := pystripL_line k.data v.data hk1 hv2
  have hsplit := splitEq_append k.data v.data hk4
  have hkstrip := pystripL_invariant k.data hk1 hk2
  have hvstrip := pystripL_invariant v.data hv1 hv2
  simp only [parseLine]
  rw [hstrip]
  cases hl : k.data ++ '=' :: v.data with
  | nil => cases hkd : k.data <;> rw [hkd] at hl <;> simp at hl
  | cons c r =>
    rw [hl] at hsplit
    have hc : ¬ c = '#' := by
      cases hkd : k.data with
      | nil =>
        rw [hkd, List.nil_append] at hl
        obtain ⟨h1, h2⟩ := List.cons.inj hl
        rw [← h1]
        decide
      | cons a t =>
        rw [hkd, List.cons_append] at hl
        obtain ⟨h1, h2⟩ := List.cons.inj hl
        rw [← h1]
        rw [hkd] at hk5
        simpa using hk5
    simp only [if_neg hc, hsplit]
    rw [hkstrip, hvstrip]

theorem pySplitLines_append (line rest : List Char)
    (hl : ∀ c ∈ line, lineBreakChar c = false) :
    pySplitLines (line ++ '\n' :: rest) = line :: pySplitLines rest := by
  show splitLinesGo false (line ++ '\n' :: rest) = line :: splitLinesGo false rest
  induction line with
  | nil => rfl
  | cons c cs ih =>
    have hc := hl c (by simp)
    have hcs : ∀ x ∈ cs, lineBreakChar x = false := fun x hx => hl x (by simp [hx])
    rw [List.cons_append]
    simp only [splitLinesGo, Bool.false_and, Bool.false_eq_true, if_false, hc]
    rw [ih hcs]

theorem splitLines_write (env : List (String × String))
    (hgood : ∀ p ∈ env, (∀ c ∈ p.1.data, lineBreakChar c = false) ∧
      (∀ c ∈ p.2.data, lineBreakChar c = false)) :
    pySplitLines (write_env_config env) =
      env.map (fun p => p.1.data ++ '=' :: p.2.data) := by
  induction env with
  | nil => rfl
  | cons p env' ih =>
    have hp := hgood p (by simp)
    have henv' : ∀ q ∈ env', (∀ c ∈ q.1.data, lineBreakChar c = false) ∧
        (∀ c ∈ q.2.data, lineBreakChar c = false) := fun q hq => hgood q (by simp [hq])
    have harr : write_env_config (p :: env') =
        (p.1.data ++ '=' :: p.2.data) ++ '\n' :: write_env_config env' := by
      simp [write_env_config]
    have hline : ∀ c ∈ p.1.data ++ '=' :: p.2.data, lineBreakChar c = false := by
      intro c hc
      rcases List.mem_append.mp hc with h | h
      · exact hp.1 c h
      · rcases List.mem_cons.mp h with rfl | h
        · decide
        · exact hp.2 c h
    rw [harr, pySplitLines_append _ _ hline, ih henv']
    rfl

theorem updateOrAppend_of_fresh (acc : List (String × String)) (k v : String)
    (h : ∀ q ∈ acc, q.1 ≠ k) : updateOrAppend acc k v = acc ++ [(k, v)] := by
  induction acc with
  | nil => rfl
  | cons q t ih =>
    have hq : (q.1 == k) = false := beq_eq_false_iff_ne.mpr (h q (by simp))
    simp only [updateOrAppend, hq, Bool.false_eq_true, if_false, List.cons_append,
      List.cons.injEq, true_and]
    exact ih (fun q2 hq2 => h q2 (by simp [hq2]))

theorem parse_fold (env : List (String × String)) :
    ∀ acc : List (String × String),
    (∀ p ∈ env, goodKey p.1 ∧ goodVal p.2) →
    (∀ p ∈ env, ∀ q ∈ acc, q.1 ≠ p.1) →
    (env.map Prod.fst).Nodup →
    (env.map (fun p => p.1.data ++ '=' :: p.2.data)).foldl parseStep acc = acc ++ env := by
  induction env with
  | nil => intro acc _ _ _; simp
  | cons p env' ih =>
    intro acc hgood hdis hnd
    simp only [List.map_cons, List.foldl_cons]
    have hstep : parseStep acc (p.1.data ++ '=' :: p.2.data) = acc ++ [(p.1, p.2)] := by
      simp only [parseStep,
        parseLine_line p.1 p.2 (hgood p (by simp)).1 (hgood p (by simp)).2]
      exact updateOrAppend_of_fresh acc p.1 p.2 (hdis p (by simp))
    rw [hstep]
    have hnd' : (env'.map Prod.fst).Nodup := by
      simp only [List.map_cons, List.nodup_cons] at hnd
      exact hnd.2
    have hfresh : p.1 ∉ env'.map Prod.fst := by
      simp only [List.map_cons, List.nodup_cons] at hnd
      exact hnd.1
    have hdis' : ∀ p2 ∈ env', ∀ q ∈ acc ++ [(p.1, p.2)], q.1 ≠ p2.1 := by
      intro p2 hp2 q hq
      rcases List.mem_append.mp hq with h | h
      · exact hdis p2 (by simp [hp2]) q h
      · rcases List.mem_cons.mp h with rfl | h
        · intro he
          exact hfresh (he ▸ List.mem_map_of_mem Prod.fst hp2)
        · simp at h
    rw [ih (acc ++ [(p.1, p.2)]) (fun q hq => hgood q (by simp [hq])) hdis' hnd']
    simp

/-- Claim C9, counterexample: a value with leading whitespace survives the
write with its whitespace, but the parser strips it back out, so the
round trip is not the identity even though the value has no newline. -/
theorem claim_c9_counterexample :
    parse_env_file (write_env_config [("K", " x")]) = [("K", "x")] ∧
    ([("K", "x")] : List (String × String)) ≠ [("K", " x")] := by decide

/-- Claim C9 (amended): writing an environment to the flat `KEY=VALUE`
store and parsing it back is the identity provided keys are pairwise
distinct, keys and values carry no leading or trailing whitespace and no
line-break characters, keys contain no `=` and do not start with `#`.
(Leading or trailing whitespace is stripped by the parser, so the claim as
stated — only excluding embedded newlines — fails.) -/
theorem claim_c9_roundtrip (env : List (String × String))
    (hnd : (env.map Prod.fst).Nodup)
    (hgood : ∀ p ∈ env, goodKey p.1 ∧ goodVal p.2) :
    parse_env_file (write_env_config env) = env := by
  unfold parse_env_file
  rw [splitLines_write env (fun p hp => ⟨(hgood p hp).1.2.2.1, (hgood p hp).2.2.2⟩)]
  rw [parse_fold env [] hgood (by simp) hnd]
  simp

/-- Claim C9, witness: the round trip evaluated on a concrete two-entry
environment of resolver-style keys and values. -/
theorem claim_c9_witness :
    parse_env_file (write_env_config
      [("DOCKER_IMAGE", "vince/robot_ws:humble"), ("VOLUMES", "(/data/assets)")]) =
    [("DOCKER_IMAGE", "vince/robot_ws:humble"), ("VOLUMES", "(/data/assets)")] :=
  claim_c9_roundtrip
    [("DOCKER_IMAGE", "vince/robot_ws:humble"), ("VOLUMES", "(/data/assets)")]
    (by decide) (by decide)

end RoboticsContainerization
